import Mathlib

/-!
Shallow embedding of the orbit calculator (`src/main.rs`).

The Rust program computes Keplerian orbital periods and circular orbital
velocities over `f64`. This development models the `f64` arithmetic over the
real numbers: every formula, constant and conversion is transcribed from the
source, and the display strings are modelled structurally (the interpolated
numeric values, the precision requested by the format string, and the unit
label), since exact decimal rendering of reals is presentational.
-/

namespace OrbitProg

noncomputable section

/-- Rust: `const PI: f64 = 3.14159;` -/
def PI : ℝ := 3.14159

/-- Rust: `const GRAVITATIONAL_CONSTANT: f64 = 6.67430e-11;` (N·m²·kg⁻²) -/
def GRAVITATIONAL_CONSTANT : ℝ := 6.67430e-11

/-- Rust: `fn calculate_orbital_period(mass: f64, semi_major_axis: f64) -> f64`,
`2.0 * PI * ((semi_major_axis.powi(3) / (GRAVITATIONAL_CONSTANT * mass)).sqrt())`. -/
def calculate_orbital_period (mass semi_major_axis : ℝ) : ℝ :=
  2 * PI * Real.sqrt (semi_major_axis ^ 3 / (GRAVITATIONAL_CONSTANT * mass))

/-- Rust: `fn calculate_circular_orbital_velocity(mass: f64, semi_major_axis: f64) -> f64`,
`((GRAVITATIONAL_CONSTANT * mass) / semi_major_axis).sqrt()` (m/s). -/
def calculate_circular_orbital_velocity (mass semi_major_axis : ℝ) : ℝ :=
  Real.sqrt ((GRAVITATIONAL_CONSTANT * mass) / semi_major_axis)

/-- Rust: `struct Body { mass: f64, radius: f64 }` (kg, m). -/
structure Body where
  mass : ℝ
  radius : ℝ

/-- Rust: `enum Altitude { Single { value: f64 }, Range { max: f64, min: f64 } }`
(always in km). -/
inductive Altitude where
  | single (value : ℝ)
  | range (max min : ℝ)

/-- Rust: `struct Orbit { name: String, altitude: Altitude, body: Rc<Body> }`.
The `Rc` sharing is pure-value here. -/
structure Orbit where
  name : String
  altitude : Altitude
  body : Body

/-- The three numeric values interpolated into one bound of a period string:
`"{seconds} seconds\n{minutes:.2} minutes\n{days:.2} days"`. -/
structure PeriodParts where
  seconds : ℝ
  minutes : ℝ
  days : ℝ

/-- Structural model of the period string: one `PeriodParts` for a single
altitude, a min/max pair (in display order min-max) for a range. -/
inductive PeriodString where
  | single (p : PeriodParts)
  | range (minP maxP : PeriodParts)

/-- Rust: `Orbit::get_period_string`. Each bound computes the semi-major axis,
takes `calculate_orbital_period(..).ceil()`, then minutes = seconds / 60 and
days = minutes / (60 * 24). -/
def Orbit.get_period_string (o : Orbit) : PeriodString :=
  match o.altitude with
  | Altitude.single value =>
      let axis := o.body.radius + value * 1000
      let period_in_seconds : ℝ := (⌈calculate_orbital_period o.body.mass axis⌉ : ℝ)
      let period_in_minutes := period_in_seconds / 60
      let period_in_days := period_in_minutes / (60 * 24)
      PeriodString.single ⟨period_in_seconds, period_in_minutes, period_in_days⟩
  | Altitude.range mx mn =>
      let max_axis := o.body.radius + mx * 1000
      let min_axis := o.body.radius + mn * 1000
      let max_period_in_seconds : ℝ := (⌈calculate_orbital_period o.body.mass max_axis⌉ : ℝ)
      let max_period_in_minutes := max_period_in_seconds / 60
      let max_period_in_days := max_period_in_minutes / (60 * 24)
      let min_period_in_seconds : ℝ := (⌈calculate_orbital_period o.body.mass min_axis⌉ : ℝ)
      let min_period_in_minutes := min_period_in_seconds / 60
      let min_period_in_days := min_period_in_minutes / (60 * 24)
      PeriodString.range
        ⟨min_period_in_seconds, min_period_in_minutes, min_period_in_days⟩
        ⟨max_period_in_seconds, max_period_in_minutes, max_period_in_days⟩

/-- Structural model of the velocity string: the interpolated value(s), the
decimal precision of the `{..:.2}` format spec, and the unit label text. -/
inductive VelocityString where
  | single (value : ℝ) (decimals : ℕ) (unit : String)
  | range (min_value max_value : ℝ) (decimals : ℕ) (unit : String)

/-- Rust: `Orbit::get_velocity_string`. Velocity in km/h is
`calculate_circular_orbital_velocity(..) * 60.0 * 60.0 / 1000.0`; the single
branch formats `"{velocity:.2} km/hr"`, the range branch
`"{min_velocity:.2}-{max_velocity:.2} km/s"`. -/
def Orbit.get_velocity_string (o : Orbit) : VelocityString :=
  match o.altitude with
  | Altitude.single value =>
      let axis := o.body.radius + value * 1000
      let velocity := calculate_circular_orbital_velocity o.body.mass axis * 60 * 60 / 1000
      VelocityString.single velocity 2 "km/hr"
  | Altitude.range mx mn =>
      let min_axis := o.body.radius + mn * 1000
      let max_axis := o.body.radius + mx * 1000
      let min_velocity := calculate_circular_orbital_velocity o.body.mass min_axis * 60 * 60 / 1000
      let max_velocity := calculate_circular_orbital_velocity o.body.mass max_axis * 60 * 60 / 1000
      VelocityString.range min_velocity max_velocity 2 "km/s"

/-- Rust: the `earth` body, `Body { mass: 5.9722e24, radius: 6.3781e6 }`. -/
def earthBody : Body := ⟨5.9722e24, 6.3781e6⟩

/-- Rust: the orbit list built by `fn earth(altitude: Option<f64>)` before it
is printed: one "User Defined" single orbit when an altitude is given,
otherwise the four fixed bands VLEO/LEO/MEO/GEO. -/
def earthOrbits (altitude : Option ℝ) : List Orbit :=
  match altitude with
  | some value => [⟨"User Defined", Altitude.single value, earthBody⟩]
  | none =>
      [⟨"VLEO", Altitude.range 450 100, earthBody⟩,
       ⟨"LEO", Altitude.range 2000 450, earthBody⟩,
       ⟨"MEO", Altitude.range 36000 2000, earthBody⟩,
       ⟨"GEO", Altitude.single 35786, earthBody⟩]

/-- Rust: `enum Commands { Earth { altitude: Option<f64> } }`. -/
inductive Commands where
  | Earth (altitude : Option ℝ)

/-- Rust: `struct Cli { command: Option<Commands> }` (the parsed command line). -/
structure Cli where
  command : Option Commands

/-- What `main`'s match does with the parsed command: either run the earth
report over an orbit list, or (the `_ => {}` arm) do nothing at all. -/
inductive ProgramAction where
  | report (orbits : List Orbit)
  | noAction

/-- Rust: the match in `fn main()`:
`Some(Commands::Earth { altitude }) => earth(altitude)`, `_ => {}`. -/
def mainRun (cli : Cli) : ProgramAction :=
  match cli.command with
  | some (Commands.Earth altitude) => ProgramAction.report (earthOrbits altitude)
  | _ => ProgramAction.noAction

/-- Whether the chosen program action writes anything to standard output. -/
def ProgramAction.printsOutput : ProgramAction → Bool
  | ProgramAction.report _ => true
  | ProgramAction.noAction => false

/-- Rust `main` returns `()` on every path and never calls `process::exit`,
so the process exit code of the modelled dispatch is always 0. -/
def mainExitCode (_ : Cli) : ℕ := 0

/-! Helper lemmas shared by several claims. -/

/-- The gravitational constant of the source is positive. -/
theorem gravitational_constant_pos : 0 < GRAVITATIONAL_CONSTANT := by
  norm_num [GRAVITATIONAL_CONSTANT]

/-- Strict antitonicity of the circular-velocity formula in the semi-major
axis, shared by the VLEO ordering claim and the monotonicity claim. -/
theorem velocity_lt_of_axis_lt (M a₁ a₂ : ℝ) (hM : 0 < M) (h₁ : 0 < a₁)
    (h₁₂ : a₁ < a₂) :
    calculate_circular_orbital_velocity M a₂ < calculate_circular_orbital_velocity M a₁ := by
  have hGM : 0 < GRAVITATIONAL_CONSTANT * M := mul_pos gravitational_constant_pos hM
  have hlt : GRAVITATIONAL_CONSTANT * M / a₂ < GRAVITATIONAL_CONSTANT * M / a₁ :=
    div_lt_div_of_pos_left hGM h₁ h₁₂
  have hnn : 0 ≤ GRAVITATIONAL_CONSTANT * M / a₂ :=
    div_nonneg hGM.le (le_of_lt (h₁.trans h₁₂))
  exact Real.sqrt_lt_sqrt hnn hlt

/-- Claim C1: for every positive mass `M` and semi-major axis `a`,
`calculate_orbital_period M a` is exactly `2 * 3.14159 * sqrt (a^3 / (G*M))`
with the truncated constant `3.14159` and `G = 6.67430e-11`, and the period a
single-altitude orbit displays is that value rounded up to the next whole
second (ceiling) before the minutes and days conversions. -/
theorem calculate_orbital_period_spec (M a : ℝ) (_hM : 0 < M) (_ha : 0 < a)
    (nm : String) (b : Body) (v : ℝ) :
    calculate_orbital_period M a
      = 2 * 3.14159 * Real.sqrt (a ^ 3 / (6.67430e-11 * M)) ∧
    (Orbit.mk nm (Altitude.single v) b).get_period_string
      = PeriodString.single
          ⟨(⌈calculate_orbital_period b.mass (b.radius + v * 1000)⌉ : ℝ),
           (⌈calculate_orbital_period b.mass (b.radius + v * 1000)⌉ : ℝ) / 60,
           (⌈calculate_orbital_period b.mass (b.radius + v * 1000)⌉ : ℝ) / 60 / (60 * 24)⟩ :=
  ⟨rfl, rfl⟩

/-- Witness for `calculate_orbital_period_spec` at `M = 1`, `a = 1` and the
GEO single-altitude orbit. -/
theorem calculate_orbital_period_spec_witness :
    (0:ℝ) < 1 ∧
    (calculate_orbital_period 1 1
        = 2 * 3.14159 * Real.sqrt ((1:ℝ) ^ 3 / (6.67430e-11 * 1)) ∧
      (Orbit.mk "GEO" (Altitude.single 35786) earthBody).get_period_string
        = PeriodString.single
            ⟨(⌈calculate_orbital_period earthBody.mass (earthBody.radius + 35786 * 1000)⌉ : ℝ),
             (⌈calculate_orbital_period earthBody.mass (earthBody.radius + 35786 * 1000)⌉ : ℝ) / 60,
             (⌈calculate_orbital_period earthBody.mass (earthBody.radius + 35786 * 1000)⌉ : ℝ) / 60
               / (60 * 24)⟩) :=
  ⟨by norm_num,
   calculate_orbital_period_spec 1 1 (by norm_num) (by norm_num) "GEO" earthBody 35786⟩

/-- Claim C2: for every positive mass `M` and semi-major axis `a`,
`calculate_circular_orbital_velocity M a` equals `sqrt (G * M / a)` in m/s
with `G = 6.67430e-11`. -/
theorem calculate_circular_orbital_velocity_spec (M a : ℝ) (_hM : 0 < M) (_ha : 0 < a) :
    calculate_circular_orbital_velocity M a = Real.sqrt (6.67430e-11 * M / a) :=
  rfl

/-- Witness for `calculate_circular_orbital_velocity_spec` at `M = 1`, `a = 1`. -/
theorem calculate_circular_orbital_velocity_spec_witness :
    (0:ℝ) < 1 ∧
    calculate_circular_orbital_velocity 1 1 = Real.sqrt (6.67430e-11 * 1 / 1) :=
  ⟨by norm_num, calculate_circular_orbital_velocity_spec 1 1 (by norm_num) (by norm_num)⟩

/-- Claim C4: with no altitude override, the earth command builds exactly the
four orbits VLEO (range 100-450 km), LEO (450-2000 km), MEO (2000-36000 km)
and GEO (single 35786 km), in that order, all over the body with mass
5.9722e24 kg and radius 6.3781e6 m. -/
theorem earth_default_orbits :
    earthOrbits none
      = [Orbit.mk "VLEO" (Altitude.range 450 100) earthBody,
         Orbit.mk "LEO" (Altitude.range 2000 450) earthBody,
         Orbit.mk "MEO" (Altitude.range 36000 2000) earthBody,
         Orbit.mk "GEO" (Altitude.single 35786) earthBody] ∧
    earthBody.mass = 5.9722e24 ∧ earthBody.radius = 6.3781e6 :=
  ⟨rfl, rfl, rfl⟩

/-- Claim C5: any altitude override yields exactly one orbit, named
"User Defined", holding that altitude as a single value, so none of the four
default bands appears. -/
theorem earth_user_defined_orbit (v : ℝ) :
    earthOrbits (some v) = [Orbit.mk "User Defined" (Altitude.single v) earthBody] :=
  rfl

/-- Claim C8: for fixed `M > 0` the circular orbital velocity is strictly
decreasing in the semi-major axis: `0 < a₁ < a₂` gives a strictly larger
velocity at `a₁` than at `a₂`. -/
theorem velocity_monotone_decreasing (M a₁ a₂ : ℝ) (hM : 0 < M) (h₁ : 0 < a₁)
    (h₁₂ : a₁ < a₂) :
    calculate_circular_orbital_velocity M a₂ < calculate_circular_orbital_velocity M a₁ :=
  velocity_lt_of_axis_lt M a₁ a₂ hM h₁ h₁₂

/-- Witness for `velocity_monotone_decreasing` at `M = 1`, `a₁ = 1`, `a₂ = 4`. -/
theorem velocity_monotone_decreasing_witness :
    (0:ℝ) < 1 ∧ (1:ℝ) < 4 ∧
    calculate_circular_orbital_velocity 1 4 < calculate_circular_orbital_velocity 1 1 :=
  ⟨by norm_num, by norm_num,
   velocity_monotone_decreasing 1 1 4 (by norm_num) (by norm_num) (by norm_num)⟩

/-- Claim C3: for the GEO default orbit over the earth body, the
ceiling-rounded period in seconds is exactly 86164, hence within one second
of the quoted approximate sidereal-day value 86164. -/
theorem geo_period_is_86164 :
    (⌈calculate_orbital_period earthBody.mass (earthBody.radius + 35786 * 1000)⌉ : ℤ) = 86164 ∧
    |(⌈calculate_orbital_period earthBody.mass (earthBody.radius + 35786 * 1000)⌉ : ℤ) - 86164| ≤ 1 := by
  have hper : calculate_orbital_period earthBody.mass (earthBody.radius + 35786 * 1000)
      = 2 * PI * Real.sqrt
          ((6.3781e6 + 35786 * 1000 : ℝ) ^ 3 / (GRAVITATIONAL_CONSTANT * 5.9722e24)) := rfl
  have hp : (0:ℝ) < 2 * PI := by norm_num [PI]
  have key : (⌈calculate_orbital_period earthBody.mass (earthBody.radius + 35786 * 1000)⌉ : ℤ)
      = 86164 := by
    rw [Int.ceil_eq_iff, hper]
    constructor
    · have h1 : (13713.3:ℝ) < Real.sqrt
          ((6.3781e6 + 35786 * 1000 : ℝ) ^ 3 / (GRAVITATIONAL_CONSTANT * 5.9722e24)) := by
        apply Real.lt_sqrt_of_sq_lt
        norm_num [GRAVITATIONAL_CONSTANT]
      have h2 := (mul_lt_mul_left hp).mpr h1
      have h3 : ((86164:ℤ):ℝ) - 1 ≤ 2 * PI * 13713.3 := by
        push_cast
        norm_num [PI]
      linarith
    · have h1 : Real.sqrt
          ((6.3781e6 + 35786 * 1000 : ℝ) ^ 3 / (GRAVITATIONAL_CONSTANT * 5.9722e24))
          ≤ 13713.4 := by
        rw [Real.sqrt_le_iff]
        refine ⟨by norm_num, ?_⟩
        norm_num [GRAVITATIONAL_CONSTANT]
      have h2 := (mul_le_mul_left hp).mpr h1
      have h3 : 2 * PI * 13713.4 ≤ ((86164:ℤ):ℝ) := by
        push_cast
        norm_num [PI]
      linarith
  refine ⟨key, ?_⟩
  rw [key]
  norm_num

/-- Claim C6: the velocity string carries the circular orbital velocity
converted from m/s to km/h (times 3600, divided by 1000) at 2 decimal
places, with unit label "km/hr" in the single branch and "km/s" in the range
branch (the range branch shows min-max in that order). -/
theorem velocity_string_spec (nm : String) (b : Body) (v mx mn : ℝ) :
    (Orbit.mk nm (Altitude.single v) b).get_velocity_string
      = VelocityString.single
          (calculate_circular_orbital_velocity b.mass (b.radius + v * 1000) * 3600 / 1000)
          2 "km/hr" ∧
    (Orbit.mk nm (Altitude.range mx mn) b).get_velocity_string
      = VelocityString.range
          (calculate_circular_orbital_velocity b.mass (b.radius + mn * 1000) * 3600 / 1000)
          (calculate_circular_orbital_velocity b.mass (b.radius + mx * 1000) * 3600 / 1000)
          2 "km/s" := by
  constructor
  · show VelocityString.single
        (calculate_circular_orbital_velocity b.mass (b.radius + v * 1000) * 60 * 60 / 1000)
        2 "km/hr" = _
    norm_num [mul_assoc]
  · show VelocityString.range
        (calculate_circular_orbital_velocity b.mass (b.radius + mn * 1000) * 60 * 60 / 1000)
        (calculate_circular_orbital_velocity b.mass (b.radius + mx * 1000) * 60 * 60 / 1000)
        2 "km/s" = _
    norm_num [mul_assoc]

/-- Claim C7: for the VLEO band (range 100-450 km) over the earth body, the
ceiling-rounded period at the min bound is strictly below the one at the max
bound, and the circular velocity at the min bound is strictly above the one
at the max bound. -/
theorem vleo_period_velocity_order :
    (⌈calculate_orbital_period earthBody.mass (earthBody.radius + 100 * 1000)⌉ : ℤ)
      < ⌈calculate_orbital_period earthBody.mass (earthBody.radius + 450 * 1000)⌉ ∧
    calculate_circular_orbital_velocity earthBody.mass (earthBody.radius + 450 * 1000)
      < calculate_circular_orbital_velocity earthBody.mass (earthBody.radius + 100 * 1000) := by
  have hp : (0:ℝ) < 2 * PI := by norm_num [PI]
  constructor
  · have hmin : (⌈calculate_orbital_period earthBody.mass (earthBody.radius + 100 * 1000)⌉ : ℤ)
        ≤ 5400 := by
      rw [Int.ceil_le]
      have h1 : Real.sqrt
          ((6.3781e6 + 100 * 1000 : ℝ) ^ 3 / (GRAVITATIONAL_CONSTANT * 5.9722e24)) ≤ 859 := by
        rw [Real.sqrt_le_iff]
        refine ⟨by norm_num, ?_⟩
        norm_num [GRAVITATIONAL_CONSTANT]
      have h2 := (mul_le_mul_left hp).mpr h1
      have h3 : 2 * PI * 859 ≤ ((5400:ℤ):ℝ) := by
        push_cast
        norm_num [PI]
      calc calculate_orbital_period earthBody.mass (earthBody.radius + 100 * 1000)
          = 2 * PI * Real.sqrt
              ((6.3781e6 + 100 * 1000 : ℝ) ^ 3 / (GRAVITATIONAL_CONSTANT * 5.9722e24)) := rfl
        _ ≤ 2 * PI * 859 := h2
        _ ≤ ((5400:ℤ):ℝ) := h3
    have hmax : (5400:ℤ)
        < ⌈calculate_orbital_period earthBody.mass (earthBody.radius + 450 * 1000)⌉ := by
      rw [Int.lt_ceil]
      have h1 : (860:ℝ) < Real.sqrt
          ((6.3781e6 + 450 * 1000 : ℝ) ^ 3 / (GRAVITATIONAL_CONSTANT * 5.9722e24)) := by
        apply Real.lt_sqrt_of_sq_lt
        norm_num [GRAVITATIONAL_CONSTANT]
      have h2 := (mul_lt_mul_left hp).mpr h1
      have h3 : ((5400:ℤ):ℝ) ≤ 2 * PI * 860 := by
        push_cast
        norm_num [PI]
      calc ((5400:ℤ):ℝ) ≤ 2 * PI * 860 := h3
        _ < 2 * PI * Real.sqrt
              ((6.3781e6 + 450 * 1000 : ℝ) ^ 3 / (GRAVITATIONAL_CONSTANT * 5.9722e24)) := h2
        _ = calculate_orbital_period earthBody.mass (earthBody.radius + 450 * 1000) := rfl
    exact lt_of_le_of_lt hmin hmax
  · apply velocity_lt_of_axis_lt
    · show (0:ℝ) < 5.9722e24
      norm_num
    · show (0:ℝ) < (6.3781e6 : ℝ) + 100 * 1000
      norm_num
    · show (6.3781e6 : ℝ) + 100 * 1000 < 6.3781e6 + 450 * 1000
      norm_num

/-- Claim C9: in every period string, for a single altitude and for both
bounds of a range, the minutes value is the ceiling-rounded seconds value
divided by 60, and the days value is that minutes value divided by 1440; all
three come from the same ceiling-rounded seconds value. -/
theorem period_parts_consistent (nm : String) (b : Body) (v mx mn : ℝ) :
    (Orbit.mk nm (Altitude.single v) b).get_period_string
      = PeriodString.single
          ⟨(⌈calculate_orbital_period b.mass (b.radius + v * 1000)⌉ : ℝ),
           (⌈calculate_orbital_period b.mass (b.radius + v * 1000)⌉ : ℝ) / 60,
           (⌈calculate_orbital_period b.mass (b.radius + v * 1000)⌉ : ℝ) / 60 / 1440⟩ ∧
    (Orbit.mk nm (Altitude.range mx mn) b).get_period_string
      = PeriodString.range
          ⟨(⌈calculate_orbital_period b.mass (b.radius + mn * 1000)⌉ : ℝ),
           (⌈calculate_orbital_period b.mass (b.radius + mn * 1000)⌉ : ℝ) / 60,
           (⌈calculate_orbital_period b.mass (b.radius + mn * 1000)⌉ : ℝ) / 60 / 1440⟩
          ⟨(⌈calculate_orbital_period b.mass (b.radius + mx * 1000)⌉ : ℝ),
           (⌈calculate_orbital_period b.mass (b.radius + mx * 1000)⌉ : ℝ) / 60,
           (⌈calculate_orbital_period b.mass (b.radius + mx * 1000)⌉ : ℝ) / 60 / 1440⟩ := by
  constructor
  · show PeriodString.single
        ⟨(⌈calculate_orbital_period b.mass (b.radius + v * 1000)⌉ : ℝ),
         (⌈calculate_orbital_period b.mass (b.radius + v * 1000)⌉ : ℝ) / 60,
         (⌈calculate_orbital_period b.mass (b.radius + v * 1000)⌉ : ℝ) / 60 / (60 * 24)⟩ = _
    norm_num
  · show PeriodString.range
        ⟨(⌈calculate_orbital_period b.mass (b.radius + mn * 1000)⌉ : ℝ),
         (⌈calculate_orbital_period b.mass (b.radius + mn * 1000)⌉ : ℝ) / 60,
         (⌈calculate_orbital_period b.mass (b.radius + mn * 1000)⌉ : ℝ) / 60 / (60 * 24)⟩
        ⟨(⌈calculate_orbital_period b.mass (b.radius + mx * 1000)⌉ : ℝ),
         (⌈calculate_orbital_period b.mass (b.radius + mx * 1000)⌉ : ℝ) / 60,
         (⌈calculate_orbital_period b.mass (b.radius + mx * 1000)⌉ : ℝ) / 60 / (60 * 24)⟩ = _
    norm_num

/-- Counterexample to claim C10 as stated: with no subcommand, `main`'s match
falls to the `_ => {}` arm, so nothing at all is printed — in particular no
"no command" notice is emitted on that path. -/
theorem main_no_command_counterexample :
    (mainRun (Cli.mk none)).printsOutput = false :=
  rfl

/-- Claim C10 (amended): with no subcommand present, `main` performs no
action (prints nothing, no notice) and returns normally, so the exit code
is 0. -/
theorem main_no_command_behavior :
    mainRun (Cli.mk none) = ProgramAction.noAction ∧
    (mainRun (Cli.mk none)).printsOutput = false ∧
    mainExitCode (Cli.mk none) = 0 :=
  ⟨rfl, rfl, rfl⟩

end

end OrbitProg
